import Mathlib

set_option maxRecDepth 16384

/-!
Shallow embedding of the ESP32 MQTT IR bridge firmware
(repository Gabubbi/Olimpia-mqtt-ir-bridge, file "Olimpia IR Bridge.ino",
with the compile-time constants of config.h).

The firmware is single-threaded and cooperative: every observable action
(IR transmission, millisecond delay, MQTT publish, subscribe, connection
attempt) is recorded as an `Event` in a trace, and the free-floating
global variables of the sketch are collected in `DevState`.  Inputs that
the hardware or the network supply during one iteration of `loop()`
(the value of `millis()`, WiFi status, the outcome of an MQTT connect
attempt, inbound MQTT payloads, the button level) are collected in `Env`.
`millis()` is read as one timestamp per iteration; 32-bit wrap-around of
the Arduino timers is kept explicit via `u32` / `sub32`.
-/

namespace OlimpiaBridge

/-! ## Compile-time configuration (config.h) -/

def DEVICE_AREA : String := "bathroom"

def DEVICE_NAME_MQTT : String := "geyser"

def BOOT_DELAY_MS : Nat := 15000

def MANUAL_DELAY_MS : Nat := 500

def TEMP_STEPS_TO_45 : Nat := 20

def IR_GAP_MS : Nat := 180

/-! ## Sketch-level constants -/

def DEBOUNCE_MS : Nat := 80

def WIFI_RETRY_MS : Nat := 5000

def MQTT_RETRY_MS : Nat := 3000

def HA_DISCOVERY_PREFIX : String := "homeassistant"

def AVAIL_ONLINE : String := "online"

def AVAIL_OFFLINE : String := "offline"

def DEVICE_IDENT : String := "olimpia_ir_esp32_01"

def DEVICE_NAME : String := "IR Heater ESP32 (bathroom)"

def DEVICE_MODEL : String := "ESP32 IR Bridge"

def DEVICE_MFR : String := "DIY"

/-- NEC 32-bit codes (as in the sketch). -/
def IR_POWER_TOGGLE : Nat := 0xFF807F

def IR_POWER_LEVEL : Nat := 0xFF00FF

def IR_OSCILLATION_TOGGLE : Nat := 0xFF20DF

def IR_SLEEP_TIMER : Nat := 0xFF30CF

def IR_TEMP_MODE : Nat := 0xFFB04F

def IR_TEMP_UP : Nat := 0xFF906F

def IR_TEMP_DOWN : Nat := 0xFF10EF

/-! ## MQTT topics built by buildMqttTopics() -/

def mqttBase : String := "hvac/" ++ DEVICE_AREA ++ "/" ++ DEVICE_NAME_MQTT

def mqttTopicCmd : String := mqttBase ++ "/command"

def mqttTopicStatus : String := mqttBase ++ "/status"

def mqttTopicAvail : String := mqttBase ++ "/availability"

/-! ## 32-bit millisecond arithmetic -/

def U32 : Nat := 4294967296

/-- Truncation to uint32, as stored in the sketch's uint32_t globals. -/
def u32 (n : Nat) : Nat := n % U32

/-- Wrap-around uint32 subtraction `a - b`, as computed by
`millis() - lastXAttemptMs` in the sketch. -/
def sub32 (a b : Nat) : Nat := (u32 a + U32 - u32 b) % U32

/-! ## Events and state -/

/-- One observable action of the firmware. -/
inductive Event where
  /-- one `irsend.sendNEC(code, 32)` call: one physical 32-bit NEC burst -/
  | nec (code : Nat)
  /-- a blocking wait of `ms` milliseconds (`delay` / `waitMsWithYield`) -/
  | delayMs (ms : Nat)
  /-- an MQTT publish actually handed to the client -/
  | pub (topic payload : String) (retain : Bool)
  /-- `mqtt.subscribe(topic)` -/
  | subscribe (topic : String)
  /-- `WiFi.begin(...)`: a non-blocking WiFi connect attempt -/
  | wifiBegin
  /-- `mqtt.connect(...)`: an MQTT session connect attempt (with LWT) -/
  | mqttConnectAttempt
  deriving DecidableEq, Repr

/-- The sketch's global mutable variables (file-scope statics). -/
structure DevState where
  mqttConnected : Bool
  discoveryPublished : Bool
  otaStarted : Bool
  lastWifiAttemptMs : Nat
  lastMqttAttemptMs : Nat
  bootRestoreScheduled : Bool
  bootRestoreAtMs : Nat
  /-- INPUT_PULLUP: `true` = HIGH = idle, `false` = LOW = pressed -/
  lastBtnState : Bool
  lastBtnChangeMs : Nat
  deriving DecidableEq, Repr

/-- Global initial values (C++ static initializers). -/
def initState : DevState :=
  { mqttConnected := false
    discoveryPublished := false
    otaStarted := false
    lastWifiAttemptMs := 0
    lastMqttAttemptMs := 0
    bootRestoreScheduled := false
    bootRestoreAtMs := 0
    lastBtnState := true
    lastBtnChangeMs := 0 }

/-- Hardware/network inputs observed during one `loop()` iteration. -/
structure Env where
  /-- value returned by `millis()` during this iteration -/
  now : Nat
  /-- `WiFi.status() == WL_CONNECTED` -/
  wifiUp : Bool
  /-- outcome of `mqtt.connect(...)` if it is attempted this iteration -/
  mqttConnectOk : Bool
  /-- the broker/socket dropped the session since the previous iteration
  (so `mqtt.connected()` turns false) -/
  drop : Bool
  /-- command payloads delivered by `mqtt.loop()` this iteration -/
  inbound : List String
  /-- `digitalRead(PIN_BTN_RESTORE)`: `true` = HIGH, `false` = LOW -/
  btnLevel : Bool
  deriving DecidableEq, Repr

/-- `esp_reset_reason_t` values distinguished by the sketch
(the `default:` arm of `resetReasonToString` is `ESP_RST_UNKNOWN`). -/
inductive ResetReason where
  | ESP_RST_POWERON
  | ESP_RST_BROWNOUT
  | ESP_RST_EXT
  | ESP_RST_SW
  | ESP_RST_PANIC
  | ESP_RST_INT_WDT
  | ESP_RST_TASK_WDT
  | ESP_RST_WDT
  | ESP_RST_DEEPSLEEP
  | ESP_RST_UNKNOWN
  deriving DecidableEq, Repr

open ResetReason

def resetReasonToString : ResetReason → String
  | ESP_RST_POWERON => "POWERON"
  | ESP_RST_BROWNOUT => "BROWNOUT"
  | ESP_RST_EXT => "EXT_RESET(EN)"
  | ESP_RST_SW => "SW_RESET"
  | ESP_RST_PANIC => "PANIC"
  | ESP_RST_INT_WDT => "INT_WDT"
  | ESP_RST_TASK_WDT => "TASK_WDT"
  | ESP_RST_WDT => "OTHER_WDT"
  | ESP_RST_DEEPSLEEP => "DEEPSLEEP"
  | ESP_RST_UNKNOWN => "UNKNOWN"

def shouldRunRestoreOnBoot (r : ResetReason) : Bool :=
  r = ESP_RST_POWERON ∨ r = ESP_RST_BROWNOUT

/-! ## MQTT helpers -/

/-- `publishStatus(msg)` checks `mqtt.connected()` and publishes to the
status topic (retained) only when connected; otherwise the message is
silently dropped (no queue, no retry).  `conn` stands for the value of
`mqtt.connected()` at the moment of the call. -/
def publishStatus (conn : Bool) (msg : String) : List Event :=
  if conn then [Event.pub mqttTopicStatus msg true] else []

/-- `setAvailability(state)`: retained publish to availability topic when
connected. -/
def setAvailability (conn : Bool) (state : String) : List Event :=
  if conn then [Event.pub mqttTopicAvail state true] else []

/-- `mqttPublish(topic, payload, retain)`: hands the publish to the
client unconditionally; a failed publish is only logged. -/
def mqttPublish (topic payload : String) : List Event :=
  [Event.pub topic payload true]

/-! ## IR helpers -/

/-- `sendNEC(code)`: sends the 32-bit NEC burst twice with a 50 ms pause,
then yields. -/
def sendNEC (code : Nat) : List Event :=
  [Event.nec code, Event.delayMs 50, Event.nec code]

/-- `sendCmd(code, tag)`: transmit, wait the inter-command gap, publish
`sent:<tag>` (when connected), small trailing delay. -/
def sendCmd (code : Nat) (tag : String) (conn : Bool) : List Event :=
  sendNEC code ++ [Event.delayMs IR_GAP_MS] ++
    publishStatus conn ("sent:" ++ tag) ++ [Event.delayMs 1]

/-- `waitMsWithYield(ms)`: a busy wait of `ms` milliseconds in 5 ms
slices, yielding each slice; modelled as one delay of the total length. -/
def waitMsWithYield (ms : Nat) : List Event :=
  [Event.delayMs ms]

/-! ## Restore macro -/

/-- `restoreTo45AndOff(triggerTag, preDelayMs)`.  `conn` is the value of
`mqtt.connected()` during the run (the run is synchronous, the session
cannot be newly established mid-run); `steps` is the configured
`TEMP_STEPS_TO_45` constant, kept as a parameter. -/
def restoreTo45AndOff (triggerTag : String) (preDelayMs : Nat)
    (conn : Bool) (steps : Nat) : List Event :=
  publishStatus conn ("restore:start:" ++ triggerTag) ++
  (if 0 < preDelayMs then waitMsWithYield preDelayMs else []) ++
  sendCmd IR_POWER_TOGGLE "power_toggle_on" conn ++
  sendCmd IR_TEMP_MODE "temp_mode" conn ++
  (List.replicate steps
    (sendCmd IR_TEMP_UP "temp_up" conn ++ [Event.delayMs 1])).flatten ++
  sendCmd IR_POWER_TOGGLE "power_toggle_off" conn ++
  publishStatus conn ("restore:done:" ++ triggerTag)

/-! ## Home Assistant discovery -/

def deviceBlockJson : String :=
  "\x7b" ++
  "\"identifiers\":[\"" ++ DEVICE_IDENT ++ "\"]," ++
  "\"name\":\"" ++ DEVICE_NAME ++ "\"," ++
  "\"manufacturer\":\"" ++ DEVICE_MFR ++ "\"," ++
  "\"model\":\"" ++ DEVICE_MODEL ++ "\"" ++
  "\x7d"

def publishButtonDiscovery (object_id name payload_press : String) :
    List Event :=
  let topic := HA_DISCOVERY_PREFIX ++ "/button/" ++ object_id ++ "/config"
  let j := "\x7b" ++
    "\"name\":\"" ++ name ++ "\"," ++
    "\"command_topic\":\"" ++ mqttTopicCmd ++ "\"," ++
    "\"payload_press\":\"" ++ payload_press ++ "\"," ++
    "\"availability_topic\":\"" ++ mqttTopicAvail ++ "\"," ++
    "\"payload_available\":\"" ++ AVAIL_ONLINE ++ "\"," ++
    "\"payload_not_available\":\"" ++ AVAIL_OFFLINE ++ "\"," ++
    "\"unique_id\":\"" ++ object_id ++ "\"," ++
    "\"device\":" ++ deviceBlockJson ++
    "\x7d"
  mqttPublish topic j

/-- Topic of the status-sensor discovery config (used to count full
discovery publications: `publishAllDiscovery` emits exactly one publish
to this topic). -/
def sensorCfgTopic : String :=
  HA_DISCOVERY_PREFIX ++ "/sensor/olimpia_ir_status_01/config"

def publishStatusSensorDiscovery : List Event :=
  let j := "\x7b" ++
    "\"name\":\"IR Heater Status\"," ++
    "\"state_topic\":\"" ++ mqttTopicStatus ++ "\"," ++
    "\"availability_topic\":\"" ++ mqttTopicAvail ++ "\"," ++
    "\"payload_available\":\"" ++ AVAIL_ONLINE ++ "\"," ++
    "\"payload_not_available\":\"" ++ AVAIL_OFFLINE ++ "\"," ++
    "\"unique_id\":\"olimpia_ir_status_01\"," ++
    "\"device\":" ++ deviceBlockJson ++
    "\x7d"
  mqttPublish sensorCfgTopic j

def publishAllDiscovery (conn : Bool) : List Event :=
  publishStatusSensorDiscovery ++
  publishButtonDiscovery "ir_btn_power_toggle_01" "IR Power Toggle" "power_toggle" ++
  publishButtonDiscovery "ir_btn_power_level_01" "IR Power Level" "power_level" ++
  publishButtonDiscovery "ir_btn_osc_toggle_01" "IR Oscillation Toggle" "oscillation_toggle" ++
  publishButtonDiscovery "ir_btn_sleep_timer_01" "IR Sleep Timer" "sleep_timer" ++
  publishButtonDiscovery "ir_btn_temp_mode_01" "IR Temp Mode" "temp_mode" ++
  publishButtonDiscovery "ir_btn_temp_up_01" "IR Temp Up" "temp_up" ++
  publishButtonDiscovery "ir_btn_temp_down_01" "IR Temp Down" "temp_down" ++
  publishButtonDiscovery "ir_btn_restore_45_off_01" "Restore 45C + OFF" "restore_state" ++
  publishStatus conn "discovery:published"

/-! ## Command handling -/

/-- `handleCommand(cmd)`: string-keyed dispatch over the fixed command
set.  `conn` is `mqtt.connected()` at dispatch time. -/
def handleCommand (cmd : String) (conn : Bool) : List Event :=
  if cmd = "power_toggle" then sendCmd IR_POWER_TOGGLE "power_toggle" conn
  else if cmd = "power_level" then sendCmd IR_POWER_LEVEL "power_level" conn
  else if cmd = "oscillation_toggle" then
    sendCmd IR_OSCILLATION_TOGGLE "oscillation_toggle" conn
  else if cmd = "sleep_timer" then sendCmd IR_SLEEP_TIMER "sleep_timer" conn
  else if cmd = "temp_mode" then sendCmd IR_TEMP_MODE "temp_mode" conn
  else if cmd = "temp_up" then sendCmd IR_TEMP_UP "temp_up" conn
  else if cmd = "temp_down" then sendCmd IR_TEMP_DOWN "temp_down" conn
  else if cmd = "restore_state" then
    restoreTo45AndOff "mqtt" MANUAL_DELAY_MS conn TEMP_STEPS_TO_45
  else publishStatus conn "error:unknown_cmd"

/-- ASCII lower-casing of one character, as Arduino `String::toLowerCase`
applies `tolower` per byte. -/
def asciiToLower (c : Char) : Char :=
  if 65 ≤ c.toNat ∧ c.toNat ≤ 90 then Char.ofNat (c.toNat + 32) else c

/-- ASCII whitespace, as recognized by `isspace` / Arduino `String::trim`. -/
def isAsciiSpace (c : Char) : Bool :=
  c = ' ' ∨ c = '\t' ∨ c = '\n' ∨ c = '\x0b' ∨ c = '\x0c' ∨ c = '\r'

/-- Arduino `String::trim`: strip whitespace from both ends. -/
def trimStr (s : String) : String :=
  ⟨((s.data.dropWhile isAsciiSpace).reverse.dropWhile isAsciiSpace).reverse⟩

/-- Arduino `String::toLowerCase`. -/
def toLowerCaseStr (s : String) : String :=
  ⟨s.data.map asciiToLower⟩

/-- `mqttCallback`: reassembles the payload bytes, trims, lower-cases,
then dispatches. -/
def mqttCallback (payload : String) (conn : Bool) : List Event :=
  handleCommand (toLowerCaseStr (trimStr payload)) conn

/-- The inbound side of `mqtt.loop()`: deliver each pending payload to
the callback (only ever invoked while the session is connected). -/
def mqttLoopInbound : List String → List Event
  | [] => []
  | p :: ps => mqttCallback p true ++ mqttLoopInbound ps

/-! ## Button polling -/

/-- `pollRestoreButton()`: debounced edge detector.  A level change is
accepted only when strictly more than `DEBOUNCE_MS` has elapsed since the
last accepted change; an accepted change to LOW triggers the restore
macro. -/
def pollRestoreButton (e : Env) (s : DevState) : DevState × List Event :=
  let cur := e.btnLevel
  if cur ≠ s.lastBtnState ∧ sub32 e.now s.lastBtnChangeMs > DEBOUNCE_MS then
    let s1 := { s with lastBtnChangeMs := u32 e.now, lastBtnState := cur }
    if cur = false then
      (s1, publishStatus s.mqttConnected "button:restore_pressed" ++
           restoreTo45AndOff "button" MANUAL_DELAY_MS s.mqttConnected
             TEMP_STEPS_TO_45)
    else (s1, [])
  else (s, [])

/-! ## WiFi / MQTT supervision -/

def ensureWiFiNonBlocking (e : Env) (s : DevState) : DevState × List Event :=
  if e.wifiUp then (s, [])
  else if sub32 e.now s.lastWifiAttemptMs < WIFI_RETRY_MS then (s, [])
  else ({ s with lastWifiAttemptMs := u32 e.now }, [Event.wifiBegin])

def ensureMQTTNonBlocking (e : Env) (s : DevState) : DevState × List Event :=
  if ¬ e.wifiUp then (s, [])
  else if s.mqttConnected then (s, [])
  else if sub32 e.now s.lastMqttAttemptMs < MQTT_RETRY_MS then (s, [])
  else
    let s1 := { s with lastMqttAttemptMs := u32 e.now }
    if e.mqttConnectOk then
      ({ s1 with mqttConnected := true, discoveryPublished := false },
       [Event.mqttConnectAttempt, Event.subscribe mqttTopicCmd] ++
         setAvailability true AVAIL_ONLINE ++ publishStatus true "online")
    else (s1, [Event.mqttConnectAttempt])

/-! ## setup() and loop() -/

/-- The part of `setup()` that touches the modelled state: arm the boot
restore trigger when the reset reason is in the power-loss class, then
call `ensureWiFiNonBlocking` once.  `t0` is `millis()` at the end of
setup, `wifiUp0` the WiFi status at that moment. -/
def setup (r : ResetReason) (t0 : Nat) (wifiUp0 : Bool) : DevState :=
  let s :=
    if shouldRunRestoreOnBoot r then
      { initState with bootRestoreScheduled := true
                       bootRestoreAtMs := u32 (t0 + BOOT_DELAY_MS) }
    else initState
  (ensureWiFiNonBlocking
    { now := t0, wifiUp := wifiUp0, mqttConnectOk := false, drop := false,
      inbound := [], btnLevel := true } s).1

/-- The discovery block inside `loop()`'s `mqtt.connected()` branch:
publish the full discovery set once per session, then republish the
reset reason and "ready". -/
def discoveryBlock (r : ResetReason) (s : DevState) : DevState × List Event :=
  if ¬ s.discoveryPublished then
    ({ s with discoveryPublished := true },
     publishAllDiscovery true ++
       publishStatus true ("boot:reset_reason:" ++ resetReasonToString r) ++
       publishStatus true "ready")
  else (s, [])

/-- An asynchronous session loss observed by `mqtt.connected()` at the
start of the iteration. -/
def dropStep (e : Env) (s : DevState) : DevState :=
  if e.drop then { s with mqttConnected := false } else s

/-- The OTA start-once block of `loop()` (only the flag is modelled). -/
def otaStep (e : Env) (s : DevState) : DevState :=
  if e.wifiUp ∧ ¬ s.otaStarted then { s with otaStarted := true } else s

/-- The `mqtt.connected()` block of `loop()`: `mqtt.loop()` (inbound
command dispatch), then the once-per-session discovery publication. -/
def sessionBlock (r : ResetReason) (e : Env) (s : DevState) :
    DevState × List Event :=
  if s.mqttConnected then
    ((discoveryBlock r s).1,
     mqttLoopInbound e.inbound ++ (discoveryBlock r s).2)
  else (s, [])

/-- The scheduled boot-restore check of `loop()`: fire once when due,
clearing the flag before running the macro. -/
def bootBlock (e : Env) (s : DevState) : DevState × List Event :=
  if s.bootRestoreScheduled ∧ s.bootRestoreAtMs ≤ u32 e.now then
    ({ s with bootRestoreScheduled := false },
     publishStatus s.mqttConnected "boot:powerloss_restore:run" ++
       restoreTo45AndOff "boot_powerloss" 0 s.mqttConnected TEMP_STEPS_TO_45)
  else (s, [])

/-- One iteration of `loop()`.  Sub-steps in source order: WiFi upkeep,
OTA start flag, MQTT upkeep, connected-session block, boot-restore
trigger check, button poll. -/
def loopStep (r : ResetReason) (e : Env) (s : DevState) :
    DevState × List Event :=
  let w := ensureWiFiNonBlocking e (dropStep e s)
  let m := ensureMQTTNonBlocking e (otaStep e w.1)
  let mid := sessionBlock r e m.1
  let bt := bootBlock e mid.1
  let pb := pollRestoreButton e bt.1
  (pb.1, w.2 ++ m.2 ++ mid.2 ++ bt.2 ++ pb.2)

/-- The device state as it reaches the `mqtt.connected()` block of one
iteration (after drop observation, WiFi upkeep, OTA flag and MQTT
upkeep). -/
def preSessionState (e : Env) (s : DevState) : DevState :=
  (ensureMQTTNonBlocking e (otaStep e (ensureWiFiNonBlocking e (dropStep e s)).1)).1

/-- Trace of a run of consecutive `loop()` iterations. -/
def runTrace (r : ResetReason) (s : DevState) : List Env → List Event
  | [] => []
  | e :: es => (loopStep r e s).2 ++ runTrace r (loopStep r e s).1 es

/-- Number of iterations in a run at which the boot-restore trigger
fires (the condition of the boot block at the start of each iteration;
no sub-step before that block touches the trigger fields). -/
def bootFireCount (r : ResetReason) (s : DevState) : List Env → Nat
  | [] => 0
  | e :: es =>
    (if s.bootRestoreScheduled ∧ s.bootRestoreAtMs ≤ u32 e.now then 1 else 0)
      + bootFireCount r (loopStep r e s).1 es

/-! ## Trace projections -/

/-- The sequence of 32-bit codes physically transmitted, in order. -/
def necCodes (tr : List Event) : List Nat :=
  tr.filterMap fun e =>
    match e with
    | Event.nec c => some c
    | _ => none

/-- The sequence of payloads published on the status topic, in order. -/
def statuses (tr : List Event) : List String :=
  tr.filterMap fun e =>
    match e with
    | Event.pub t m _ => if t = mqttTopicStatus then some m else none
    | _ => none

/-- All publishes of any kind in a trace (topic, payload). -/
def pubsOf (tr : List Event) : List (String × String) :=
  tr.filterMap fun e =>
    match e with
    | Event.pub t m _ => some (t, m)
    | _ => none

/-- Number of publishes to the status-sensor discovery config topic;
each full discovery publication contributes exactly one. -/
def cfgCount (tr : List Event) : Nat :=
  (pubsOf tr).countP fun p => p.1 = sensorCfgTopic

/-- The condition under which `ensureWiFiNonBlocking` issues a connect
attempt: link down and at least one full cooldown since the last
attempt. -/
def wifiAttemptCond (e : Env) (s : DevState) : Bool :=
  !e.wifiUp && WIFI_RETRY_MS ≤ sub32 e.now s.lastWifiAttemptMs

/-- The condition under which `ensureMQTTNonBlocking` issues a connect
attempt: link up, session down, and at least one full cooldown since the
last attempt. -/
def mqttAttemptCond (e : Env) (s : DevState) : Bool :=
  e.wifiUp && !s.mqttConnected &&
    MQTT_RETRY_MS ≤ sub32 e.now s.lastMqttAttemptMs

/-! ## Helper lemmas: trace projections of the building blocks -/

lemma necCodes_append (l1 l2 : List Event) :
    necCodes (l1 ++ l2) = necCodes l1 ++ necCodes l2 := by
  simp [necCodes]

lemma statuses_append (l1 l2 : List Event) :
    statuses (l1 ++ l2) = statuses l1 ++ statuses l2 := by
  simp [statuses]

lemma pubsOf_append (l1 l2 : List Event) :
    pubsOf (l1 ++ l2) = pubsOf l1 ++ pubsOf l2 := by
  simp [pubsOf]

lemma necCodes_publishStatus (c : Bool) (m : String) :
    necCodes (publishStatus c m) = [] := by
  cases c <;> simp [publishStatus, necCodes]

lemma statuses_publishStatus (c : Bool) (m : String) :
    statuses (publishStatus c m) = if c then [m] else [] := by
  cases c <;> simp [statuses, publishStatus]

lemma pubsOf_publishStatus (c : Bool) (m : String) :
    pubsOf (publishStatus c m) = if c then [(mqttTopicStatus, m)] else [] := by
  cases c <;> simp [pubsOf, publishStatus]

lemma necCodes_sendCmd (code : Nat) (tag : String) (c : Bool) :
    necCodes (sendCmd code tag c) = [code, code] := by
  cases c <;> simp [sendCmd, sendNEC, publishStatus, necCodes]

lemma statuses_sendCmd (code : Nat) (tag : String) (c : Bool) :
    statuses (sendCmd code tag c) = if c then ["sent:" ++ tag] else [] := by
  cases c <;> simp [sendCmd, sendNEC, publishStatus, statuses]

lemma pubsOf_sendCmd (code : Nat) (tag : String) (c : Bool) :
    pubsOf (sendCmd code tag c) =
      if c then [(mqttTopicStatus, "sent:" ++ tag)] else [] := by
  cases c <;> simp [sendCmd, sendNEC, publishStatus, pubsOf]

lemma necCodes_tempLoop (c : Bool) (n : Nat) :
    necCodes ((List.replicate n
        (sendCmd IR_TEMP_UP "temp_up" c ++ [Event.delayMs 1])).flatten) =
      (List.replicate n [IR_TEMP_UP, IR_TEMP_UP]).flatten := by
  induction n with
  | zero => simp [necCodes]
  | succ n ih =>
    simp only [List.replicate_succ, List.flatten_cons, necCodes_append,
      necCodes_sendCmd, ih]
    simp [necCodes]

lemma statuses_delay (ms : Nat) : statuses [Event.delayMs ms] = [] := rfl

lemma pubsOf_delay (ms : Nat) : pubsOf [Event.delayMs ms] = [] := rfl

lemma statuses_tempLoop (c : Bool) (n : Nat) :
    statuses ((List.replicate n
        (sendCmd IR_TEMP_UP "temp_up" c ++ [Event.delayMs 1])).flatten) =
      if c then List.replicate n "sent:temp_up" else [] := by
  induction n with
  | zero => cases c <;> simp [statuses]
  | succ n ih =>
    rw [List.replicate_succ, List.flatten_cons, statuses_append,
      statuses_append, statuses_sendCmd, statuses_delay, ih]
    cases c <;> simp [List.replicate_succ]

lemma pubsOf_tempLoop (c : Bool) (n : Nat) :
    pubsOf ((List.replicate n
        (sendCmd IR_TEMP_UP "temp_up" c ++ [Event.delayMs 1])).flatten) =
      if c then List.replicate n (mqttTopicStatus, "sent:temp_up") else [] := by
  induction n with
  | zero => cases c <;> simp [pubsOf]
  | succ n ih =>
    rw [List.replicate_succ, List.flatten_cons, pubsOf_append,
      pubsOf_append, pubsOf_sendCmd, pubsOf_delay, ih]
    cases c <;> simp [List.replicate_succ]

lemma necCodes_waitIf (pre : Nat) :
    necCodes (if 0 < pre then waitMsWithYield pre else []) = [] := by
  split <;> simp [waitMsWithYield, necCodes]

lemma statuses_waitIf (pre : Nat) :
    statuses (if 0 < pre then waitMsWithYield pre else []) = [] := by
  split <;> simp [waitMsWithYield, statuses]

lemma pubsOf_waitIf (pre : Nat) :
    pubsOf (if 0 < pre then waitMsWithYield pre else []) = [] := by
  split <;> simp [waitMsWithYield, pubsOf]

/-- The code sequence transmitted by one run of the restore macro. -/
lemma necCodes_restore (tag : String) (pre : Nat) (conn : Bool) (N : Nat) :
    necCodes (restoreTo45AndOff tag pre conn N) =
      [IR_POWER_TOGGLE, IR_POWER_TOGGLE, IR_TEMP_MODE, IR_TEMP_MODE] ++
        (List.replicate N [IR_TEMP_UP, IR_TEMP_UP]).flatten ++
        [IR_POWER_TOGGLE, IR_POWER_TOGGLE] := by
  simp [restoreTo45AndOff, necCodes_append, necCodes_publishStatus,
    necCodes_waitIf, necCodes_sendCmd, necCodes_tempLoop]

lemma statuses_restore (tag : String) (pre : Nat) (N : Nat) :
    statuses (restoreTo45AndOff tag pre true N) =
      ("restore:start:" ++ tag) :: "sent:power_toggle_on" :: "sent:temp_mode" ::
        (List.replicate N "sent:temp_up" ++
          ["sent:power_toggle_off", "restore:done:" ++ tag]) := by
  simp [restoreTo45AndOff, statuses_append, statuses_publishStatus,
    statuses_waitIf, statuses_sendCmd, statuses_tempLoop]

lemma pubsOf_restore_disconnected (tag : String) (pre : Nat) (N : Nat) :
    pubsOf (restoreTo45AndOff tag pre false N) = [] := by
  simp [restoreTo45AndOff, pubsOf_append, pubsOf_publishStatus,
    pubsOf_waitIf, pubsOf_sendCmd, pubsOf_tempLoop]

lemma statuses_restore_disconnected (tag : String) (pre : Nat) (N : Nat) :
    statuses (restoreTo45AndOff tag pre false N) = [] := by
  simp [restoreTo45AndOff, statuses_append, statuses_publishStatus,
    statuses_waitIf, statuses_sendCmd, statuses_tempLoop]

/-! ## Claim theorems -/

/-- C1: one invocation of the recovery macro emits `restore:start:<tag>`,
then (after the optional pre-delay) transmits exactly one power-toggle
command, one temp-mode command, N temp-up commands and one power-toggle
command, in that fixed order (each command is a double NEC burst of its
code), and finally emits `restore:done:<tag>`; the transmitted code
sequence is independent of the trigger tag (and of the pre-delay and of
the session state). -/
theorem C1_restore_macro_sequence (tag : String) (pre : Nat) (conn : Bool)
    (N : Nat) :
    necCodes (restoreTo45AndOff tag pre conn N) =
      [IR_POWER_TOGGLE, IR_POWER_TOGGLE, IR_TEMP_MODE, IR_TEMP_MODE] ++
        (List.replicate N [IR_TEMP_UP, IR_TEMP_UP]).flatten ++
        [IR_POWER_TOGGLE, IR_POWER_TOGGLE] ∧
    statuses (restoreTo45AndOff tag pre true N) =
      ("restore:start:" ++ tag) :: "sent:power_toggle_on" :: "sent:temp_mode" ::
        (List.replicate N "sent:temp_up" ++
          ["sent:power_toggle_off", "restore:done:" ++ tag]) ∧
    (∀ tag2 pre2 conn2,
      necCodes (restoreTo45AndOff tag2 pre2 conn2 N) =
        necCodes (restoreTo45AndOff tag pre conn N)) := by
  refine ⟨necCodes_restore tag pre conn N, statuses_restore tag pre N, ?_⟩
  intro tag2 pre2 conn2
  rw [necCodes_restore, necCodes_restore]

/-- C2: the boot recovery scheduler arms the one-shot trigger if and only
if the last reset reason is power-on or brownout; every other enumerated
reason leaves it unarmed. -/
theorem C2_boot_arm_iff (r : ResetReason) (t0 : Nat) (w : Bool) :
    (setup r t0 w).bootRestoreScheduled = true ↔
      (r = ESP_RST_POWERON ∨ r = ESP_RST_BROWNOUT) := by
  have hpres : ∀ e s, ((ensureWiFiNonBlocking e s).1).bootRestoreScheduled
      = s.bootRestoreScheduled := by
    intro e s
    unfold ensureWiFiNonBlocking
    split
    · rfl
    · split <;> rfl
  cases r <;>
    simp [setup, hpres, shouldRunRestoreOnBoot, initState]

/-- C9: every transmitter invocation sends the 32-bit code exactly twice
with a fixed 50 ms pause between the two bursts; the labeled variant
additionally waits the inter-command gap and then emits exactly one
`sent:<tag>` status event, in that order. -/
theorem C9_transmit_twice_then_label (code : Nat) (tag : String) :
    sendNEC code = [Event.nec code, Event.delayMs 50, Event.nec code] ∧
    sendCmd code tag true =
      [Event.nec code, Event.delayMs 50, Event.nec code,
       Event.delayMs IR_GAP_MS,
       Event.pub mqttTopicStatus ("sent:" ++ tag) true,
       Event.delayMs 1] ∧
    necCodes (sendCmd code tag true) = [code, code] ∧
    statuses (sendCmd code tag true) = ["sent:" ++ tag] := by
  refine ⟨rfl, ?_, necCodes_sendCmd code tag true, ?_⟩
  · simp [sendCmd, sendNEC, publishStatus]
  · simp [statuses_sendCmd]

/-- C10: while the session is disconnected, publishing a status event is
a no-op (the event is dropped, nothing is queued or retried — the trace
holds no publish of any kind), and a macro run that fires before any
session exists publishes none of its events while all IR transmissions
still occur. -/
theorem C10_status_dropped_offline (msg tag : String) (pre N : Nat) :
    publishStatus false msg = [] ∧
    pubsOf (restoreTo45AndOff tag pre false N) = [] ∧
    statuses (restoreTo45AndOff tag pre false N) = [] ∧
    necCodes (restoreTo45AndOff tag pre false N) =
      [IR_POWER_TOGGLE, IR_POWER_TOGGLE, IR_TEMP_MODE, IR_TEMP_MODE] ++
        (List.replicate N [IR_TEMP_UP, IR_TEMP_UP]).flatten ++
        [IR_POWER_TOGGLE, IR_POWER_TOGGLE] := by
  exact ⟨rfl, pubsOf_restore_disconnected tag pre N,
    statuses_restore_disconnected tag pre N,
    necCodes_restore tag pre false N⟩

/-- C3: every recognized command token dispatches to exactly one
transmitter call (one double NEC burst of the mapped code) and exactly
one `sent:<tag>` status whose tag equals the token; `restore_state`
instead runs exactly one recovery macro; inbound payloads are trimmed
and lower-cased before matching, so `"  Temp_Up  "` yields exactly one
temp-up transmission and no macro. -/
theorem C3_dispatch_mapping (conn : Bool) :
    (necCodes (handleCommand "power_toggle" conn) =
        [IR_POWER_TOGGLE, IR_POWER_TOGGLE] ∧
      statuses (handleCommand "power_toggle" true) = ["sent:power_toggle"]) ∧
    (necCodes (handleCommand "power_level" conn) =
        [IR_POWER_LEVEL, IR_POWER_LEVEL] ∧
      statuses (handleCommand "power_level" true) = ["sent:power_level"]) ∧
    (necCodes (handleCommand "oscillation_toggle" conn) =
        [IR_OSCILLATION_TOGGLE, IR_OSCILLATION_TOGGLE] ∧
      statuses (handleCommand "oscillation_toggle" true) =
        ["sent:oscillation_toggle"]) ∧
    (necCodes (handleCommand "sleep_timer" conn) =
        [IR_SLEEP_TIMER, IR_SLEEP_TIMER] ∧
      statuses (handleCommand "sleep_timer" true) = ["sent:sleep_timer"]) ∧
    (necCodes (handleCommand "temp_mode" conn) =
        [IR_TEMP_MODE, IR_TEMP_MODE] ∧
      statuses (handleCommand "temp_mode" true) = ["sent:temp_mode"]) ∧
    (necCodes (handleCommand "temp_up" conn) = [IR_TEMP_UP, IR_TEMP_UP] ∧
      statuses (handleCommand "temp_up" true) = ["sent:temp_up"]) ∧
    (necCodes (handleCommand "temp_down" conn) =
        [IR_TEMP_DOWN, IR_TEMP_DOWN] ∧
      statuses (handleCommand "temp_down" true) = ["sent:temp_down"]) ∧
    handleCommand "restore_state" conn =
      restoreTo45AndOff "mqtt" MANUAL_DELAY_MS conn TEMP_STEPS_TO_45 ∧
    toLowerCaseStr (trimStr "  Temp_Up  ") = "temp_up" ∧
    necCodes (mqttCallback "  Temp_Up  " conn) = [IR_TEMP_UP, IR_TEMP_UP] ∧
    statuses (mqttCallback "  Temp_Up  " true) = ["sent:temp_up"] := by
  cases conn <;> decide

/-- C4: a token outside the recognized command set (the empty string
included) produces no IR transmission and no other action beyond the
single `error:unknown_cmd` status event (published when the session is
connected, dropped otherwise); dispatch is a total function, so no fault
is possible. -/
theorem C4_unknown_token (cmd : String) (conn : Bool)
    (h : cmd ∉ ["power_toggle", "power_level", "oscillation_toggle",
      "sleep_timer", "temp_mode", "temp_up", "temp_down", "restore_state"]) :
    handleCommand cmd conn = publishStatus conn "error:unknown_cmd" ∧
    necCodes (handleCommand cmd conn) = [] ∧
    statuses (handleCommand cmd true) = ["error:unknown_cmd"] := by
  simp only [List.mem_cons, List.not_mem_nil, or_false, not_or] at h
  obtain ⟨h1, h2, h3, h4, h5, h6, h7, h8⟩ := h
  refine ⟨?_, ?_, ?_⟩ <;>
    simp [handleCommand, h1, h2, h3, h4, h5, h6, h7, h8,
      necCodes_publishStatus, statuses_publishStatus]

/-- Witness for C4 at the concrete unknown tokens `"frobnicate"` and
the empty string. -/
theorem C4_unknown_token_wit :
    handleCommand "frobnicate" true =
      [Event.pub mqttTopicStatus "error:unknown_cmd" true] ∧
    handleCommand "" false = [] := by
  constructor
  · have h := C4_unknown_token "frobnicate" true (by decide)
    simpa [publishStatus] using h.1
  · have h := C4_unknown_token "" false (by decide)
    simpa [publishStatus] using h.1

/-- C6 counterexample: with the stable level HIGH since time 0 and the
button read LOW at exactly `DEBOUNCE_MS` (= 80 ms), the claim's "held at
or beyond the debounce interval" case demands a macro trigger, but the
poll does nothing — the code requires strictly more than the debounce
interval (`>`), so at the boundary neither the state nor the trace
changes. -/
theorem C6_counterexample :
    pollRestoreButton
      { now := 80, wifiUp := false, mqttConnectOk := false, drop := false,
        inbound := [], btnLevel := false }
      initState = (initState, []) := by
  decide

/-- C6 (amended): a level change at or before the debounce interval
since the last accepted change never triggers anything; a change to the
pressed (LOW) level strictly after the debounce interval triggers
exactly one macro run with tag "button" and the manual pre-delay; no
macro ever runs on a HIGH (released) reading. -/
theorem C6_debounce_amended (e : Env) (s : DevState) :
    (sub32 e.now s.lastBtnChangeMs ≤ DEBOUNCE_MS →
      pollRestoreButton e s = (s, [])) ∧
    (e.btnLevel = true → (pollRestoreButton e s).2 = []) ∧
    (e.btnLevel = false → s.lastBtnState = true →
      DEBOUNCE_MS < sub32 e.now s.lastBtnChangeMs →
      (pollRestoreButton e s).2 =
        publishStatus s.mqttConnected "button:restore_pressed" ++
          restoreTo45AndOff "button" MANUAL_DELAY_MS s.mqttConnected
            TEMP_STEPS_TO_45 ∧
      (pollRestoreButton e s).1.lastBtnState = false) := by
  refine ⟨?_, ?_, ?_⟩
  · intro hle
    have hnot : ¬(e.btnLevel ≠ s.lastBtnState ∧
        sub32 e.now s.lastBtnChangeMs > DEBOUNCE_MS) := by
      rintro ⟨-, hgt⟩
      exact absurd hgt (not_lt.mpr hle)
    simp [pollRestoreButton, hnot]
  · intro hb
    simp only [pollRestoreButton, hb]
    split
    · simp
    · simp
  · intro hb hl hgt
    simp [pollRestoreButton, hb, hl, hgt]

/-- Witness for C6 (amended): at 40 ms the poll does nothing; at 81 ms a
LOW reading triggers exactly one restore macro run (the status publish
is dropped since no session exists). -/
theorem C6_debounce_amended_wit :
    pollRestoreButton
      { now := 40, wifiUp := false, mqttConnectOk := false, drop := false,
        inbound := [], btnLevel := false }
      initState = (initState, []) ∧
    (pollRestoreButton
      { now := 81, wifiUp := false, mqttConnectOk := false, drop := false,
        inbound := [], btnLevel := false }
      initState).2 =
      restoreTo45AndOff "button" MANUAL_DELAY_MS false TEMP_STEPS_TO_45 := by
  constructor
  · exact (C6_debounce_amended _ initState).1 (by decide)
  · have h := (C6_debounce_amended
      { now := 81, wifiUp := false, mqttConnectOk := false, drop := false,
        inbound := [], btnLevel := false }
      initState).2.2 rfl rfl (by decide)
    simpa [publishStatus, initState] using h.1

/-! ## Supervisor helper lemmas -/

lemma ensureWiFi_trace (e : Env) (s : DevState) :
    (ensureWiFiNonBlocking e s).2 =
      if wifiAttemptCond e s then [Event.wifiBegin] else [] := by
  unfold ensureWiFiNonBlocking wifiAttemptCond
  by_cases hw : e.wifiUp
  · simp [hw]
  · by_cases hc : sub32 e.now s.lastWifiAttemptMs < WIFI_RETRY_MS
    · simp [hw, hc, Nat.not_le.mpr hc]
    · simp [hw, hc, Nat.not_lt.mp hc]

lemma ensureWiFi_last (e : Env) (s : DevState) :
    (ensureWiFiNonBlocking e s).1.lastWifiAttemptMs =
      if wifiAttemptCond e s then u32 e.now else s.lastWifiAttemptMs := by
  unfold ensureWiFiNonBlocking wifiAttemptCond
  by_cases hw : e.wifiUp
  · simp [hw]
  · by_cases hc : sub32 e.now s.lastWifiAttemptMs < WIFI_RETRY_MS
    · simp [hw, hc, Nat.not_le.mpr hc]
    · simp [hw, hc, Nat.not_lt.mp hc]

lemma ensureMQTT_attempts (e : Env) (s : DevState) :
    ((ensureMQTTNonBlocking e s).2.countP
        fun ev => ev = Event.mqttConnectAttempt) =
      if mqttAttemptCond e s then 1 else 0 := by
  unfold ensureMQTTNonBlocking mqttAttemptCond
  by_cases hw : e.wifiUp
  · by_cases hm : s.mqttConnected
    · simp [hw, hm]
    · by_cases hc : sub32 e.now s.lastMqttAttemptMs < MQTT_RETRY_MS
      · simp [hw, hm, hc, Nat.not_le.mpr hc]
      · by_cases hok : e.mqttConnectOk <;>
          simp [hw, hm, hc, Nat.not_lt.mp hc, hok,
            setAvailability, publishStatus]
  · simp [hw]

lemma ensureMQTT_last (e : Env) (s : DevState) :
    (ensureMQTTNonBlocking e s).1.lastMqttAttemptMs =
      if mqttAttemptCond e s then u32 e.now else s.lastMqttAttemptMs := by
  unfold ensureMQTTNonBlocking mqttAttemptCond
  by_cases hw : e.wifiUp
  · by_cases hm : s.mqttConnected
    · simp [hw, hm]
    · by_cases hc : sub32 e.now s.lastMqttAttemptMs < MQTT_RETRY_MS
      · simp [hw, hm, hc, Nat.not_le.mpr hc]
      · by_cases hok : e.mqttConnectOk <;>
          simp [hw, hm, hc, Nat.not_lt.mp hc, hok]
  · simp [hw]

/-- C8: for both the network link and the session, a connect attempt is
issued exactly when not connected and at least one fixed cooldown has
elapsed since the last attempt (so retries recur indefinitely with no
backoff growth and no attempt limit); the last-attempt timestamp is
updated exactly on attempts, regardless of the attempt's outcome; the
session condition requires the link to be up. -/
theorem C8_retry_policy (e : Env) (s : DevState) (b1 b2 : Bool) :
    (ensureWiFiNonBlocking e s).2 =
      (if wifiAttemptCond e s then [Event.wifiBegin] else []) ∧
    (ensureWiFiNonBlocking e s).1.lastWifiAttemptMs =
      (if wifiAttemptCond e s then u32 e.now else s.lastWifiAttemptMs) ∧
    ((ensureMQTTNonBlocking e s).2.countP
        fun ev => ev = Event.mqttConnectAttempt) =
      (if mqttAttemptCond e s then 1 else 0) ∧
    (ensureMQTTNonBlocking e s).1.lastMqttAttemptMs =
      (if mqttAttemptCond e s then u32 e.now else s.lastMqttAttemptMs) ∧
    (ensureMQTTNonBlocking { e with mqttConnectOk := b1 } s).1.lastMqttAttemptMs
      = (ensureMQTTNonBlocking
          { e with mqttConnectOk := b2 } s).1.lastMqttAttemptMs ∧
    mqttAttemptCond e s = (mqttAttemptCond e s && e.wifiUp) := by
  refine ⟨ensureWiFi_trace e s, ensureWiFi_last e s, ensureMQTT_attempts e s,
    ensureMQTT_last e s, ?_, ?_⟩
  · rw [ensureMQTT_last, ensureMQTT_last]
    simp [mqttAttemptCond]
  · unfold mqttAttemptCond
    cases e.wifiUp <;> simp

/-! ## Field preservation through the loop sub-steps -/

lemma ensureWiFi_sched (e : Env) (s : DevState) :
    (ensureWiFiNonBlocking e s).1.bootRestoreScheduled =
      s.bootRestoreScheduled := by
  unfold ensureWiFiNonBlocking
  split
  · rfl
  split <;> rfl

lemma ensureWiFi_at (e : Env) (s : DevState) :
    (ensureWiFiNonBlocking e s).1.bootRestoreAtMs = s.bootRestoreAtMs := by
  unfold ensureWiFiNonBlocking
  split
  · rfl
  split <;> rfl

lemma ensureWiFi_conn (e : Env) (s : DevState) :
    (ensureWiFiNonBlocking e s).1.mqttConnected = s.mqttConnected := by
  unfold ensureWiFiNonBlocking
  split
  · rfl
  split <;> rfl

lemma ensureWiFi_flag (e : Env) (s : DevState) :
    (ensureWiFiNonBlocking e s).1.discoveryPublished =
      s.discoveryPublished := by
  unfold ensureWiFiNonBlocking
  split
  · rfl
  split <;> rfl

lemma ensureMQTT_sched (e : Env) (s : DevState) :
    (ensureMQTTNonBlocking e s).1.bootRestoreScheduled =
      s.bootRestoreScheduled := by
  unfold ensureMQTTNonBlocking
  split
  · rfl
  split
  · rfl
  split
  · rfl
  split <;> rfl

lemma ensureMQTT_at (e : Env) (s : DevState) :
    (ensureMQTTNonBlocking e s).1.bootRestoreAtMs = s.bootRestoreAtMs := by
  unfold ensureMQTTNonBlocking
  split
  · rfl
  split
  · rfl
  split
  · rfl
  split <;> rfl

lemma discoveryBlock_sched (r : ResetReason) (s : DevState) :
    (discoveryBlock r s).1.bootRestoreScheduled = s.bootRestoreScheduled := by
  unfold discoveryBlock; split <;> rfl

lemma discoveryBlock_at (r : ResetReason) (s : DevState) :
    (discoveryBlock r s).1.bootRestoreAtMs = s.bootRestoreAtMs := by
  unfold discoveryBlock; split <;> rfl

lemma discoveryBlock_conn (r : ResetReason) (s : DevState) :
    (discoveryBlock r s).1.mqttConnected = s.mqttConnected := by
  unfold discoveryBlock; split <;> rfl

lemma discoveryBlock_flag (r : ResetReason) (s : DevState) :
    (discoveryBlock r s).1.discoveryPublished = true := by
  unfold discoveryBlock
  split
  · rfl
  · rename_i h
    simpa using h

lemma poll_sched (e : Env) (s : DevState) :
    (pollRestoreButton e s).1.bootRestoreScheduled =
      s.bootRestoreScheduled := by
  simp only [pollRestoreButton]
  split
  · split <;> rfl
  · rfl

lemma poll_at (e : Env) (s : DevState) :
    (pollRestoreButton e s).1.bootRestoreAtMs = s.bootRestoreAtMs := by
  simp only [pollRestoreButton]
  split
  · split <;> rfl
  · rfl

lemma poll_conn (e : Env) (s : DevState) :
    (pollRestoreButton e s).1.mqttConnected = s.mqttConnected := by
  simp only [pollRestoreButton]
  split
  · split <;> rfl
  · rfl

lemma poll_flag (e : Env) (s : DevState) :
    (pollRestoreButton e s).1.discoveryPublished = s.discoveryPublished := by
  simp only [pollRestoreButton]
  split
  · split <;> rfl
  · rfl

lemma dropStep_sched (e : Env) (s : DevState) :
    (dropStep e s).bootRestoreScheduled = s.bootRestoreScheduled := by
  unfold dropStep; split <;> rfl

lemma dropStep_at (e : Env) (s : DevState) :
    (dropStep e s).bootRestoreAtMs = s.bootRestoreAtMs := by
  unfold dropStep; split <;> rfl

lemma dropStep_flag (e : Env) (s : DevState) :
    (dropStep e s).discoveryPublished = s.discoveryPublished := by
  unfold dropStep; split <;> rfl

lemma dropStep_conn (e : Env) (s : DevState) :
    (dropStep e s).mqttConnected = (!e.drop && s.mqttConnected) := by
  unfold dropStep
  cases hd : e.drop <;> simp [hd]

lemma otaStep_sched (e : Env) (s : DevState) :
    (otaStep e s).bootRestoreScheduled = s.bootRestoreScheduled := by
  unfold otaStep; split <;> rfl

lemma otaStep_at (e : Env) (s : DevState) :
    (otaStep e s).bootRestoreAtMs = s.bootRestoreAtMs := by
  unfold otaStep; split <;> rfl

lemma otaStep_conn (e : Env) (s : DevState) :
    (otaStep e s).mqttConnected = s.mqttConnected := by
  unfold otaStep; split <;> rfl

lemma otaStep_flag (e : Env) (s : DevState) :
    (otaStep e s).discoveryPublished = s.discoveryPublished := by
  unfold otaStep; split <;> rfl

lemma sessionBlock_sched (r : ResetReason) (e : Env) (s : DevState) :
    (sessionBlock r e s).1.bootRestoreScheduled = s.bootRestoreScheduled := by
  unfold sessionBlock
  split
  · exact discoveryBlock_sched r s
  · rfl

lemma sessionBlock_at (r : ResetReason) (e : Env) (s : DevState) :
    (sessionBlock r e s).1.bootRestoreAtMs = s.bootRestoreAtMs := by
  unfold sessionBlock
  split
  · exact discoveryBlock_at r s
  · rfl

lemma sessionBlock_conn (r : ResetReason) (e : Env) (s : DevState) :
    (sessionBlock r e s).1.mqttConnected = s.mqttConnected := by
  unfold sessionBlock
  split
  · exact discoveryBlock_conn r s
  · rfl

lemma sessionBlock_flag (r : ResetReason) (e : Env) (s : DevState) :
    (sessionBlock r e s).1.discoveryPublished =
      (s.discoveryPublished || s.mqttConnected) := by
  unfold sessionBlock
  split
  · rename_i h
    simp [discoveryBlock_flag, h]
  · rename_i h
    simp at h
    simp [h]

lemma bootBlock_sched (e : Env) (s : DevState) :
    (bootBlock e s).1.bootRestoreScheduled =
      (s.bootRestoreScheduled &&
        !(s.bootRestoreAtMs ≤ u32 e.now : Bool)) := by
  unfold bootBlock
  split
  · rename_i h
    simp [h.1, h.2]
  · rename_i h
    cases hs : s.bootRestoreScheduled
    · rfl
    · have hc : ¬ s.bootRestoreAtMs ≤ u32 e.now := fun hle => h ⟨hs, hle⟩
      simp [hc]

lemma bootBlock_at (e : Env) (s : DevState) :
    (bootBlock e s).1.bootRestoreAtMs = s.bootRestoreAtMs := by
  unfold bootBlock; split <;> rfl

lemma bootBlock_conn (e : Env) (s : DevState) :
    (bootBlock e s).1.mqttConnected = s.mqttConnected := by
  unfold bootBlock; split <;> rfl

lemma bootBlock_flag (e : Env) (s : DevState) :
    (bootBlock e s).1.discoveryPublished = s.discoveryPublished := by
  unfold bootBlock; split <;> rfl

/-! ## Loop-step equations for the boot-restore trigger -/

/-- The final state of one loop iteration, as the composition of the
sub-steps. -/
lemma loopStep_fst (r : ResetReason) (e : Env) (s : DevState) :
    (loopStep r e s).1 =
      (pollRestoreButton e
        (bootBlock e
          (sessionBlock r e
            (ensureMQTTNonBlocking e
              (otaStep e
                (ensureWiFiNonBlocking e (dropStep e s)).1)).1).1).1).1 := rfl

/-- The boot trigger's scheduled flag after one iteration: cleared when
it fires, otherwise unchanged; no iteration ever sets it. -/
lemma loopStep_sched (r : ResetReason) (e : Env) (s : DevState) :
    (loopStep r e s).1.bootRestoreScheduled =
      (s.bootRestoreScheduled &&
        !(s.bootRestoreAtMs ≤ u32 e.now : Bool)) := by
  rw [loopStep_fst, poll_sched, bootBlock_sched, sessionBlock_sched,
    sessionBlock_at, ensureMQTT_sched, ensureMQTT_at, otaStep_sched,
    otaStep_at, ensureWiFi_sched, ensureWiFi_at, dropStep_sched, dropStep_at]

/-- The fire-at timestamp is never modified by the loop. -/
lemma loopStep_at (r : ResetReason) (e : Env) (s : DevState) :
    (loopStep r e s).1.bootRestoreAtMs = s.bootRestoreAtMs := by
  rw [loopStep_fst, poll_at, bootBlock_at, sessionBlock_at, ensureMQTT_at,
    otaStep_at, ensureWiFi_at, dropStep_at]

lemma bootFireCount_zero (r : ResetReason) (s : DevState) (envs : List Env)
    (h : s.bootRestoreScheduled = false) : bootFireCount r s envs = 0 := by
  induction envs generalizing s with
  | nil => rfl
  | cons e es ih =>
    have h' : (loopStep r e s).1.bootRestoreScheduled = false := by
      rw [loopStep_sched, h]; rfl
    simp [bootFireCount, h, ih _ h']

/-- The trigger fires at most once per boot: exactly once when it was
armed and some iteration reaches the fire-at time, never otherwise. -/
lemma bootFireCount_formula (r : ResetReason) (s : DevState)
    (envs : List Env) :
    bootFireCount r s envs =
      if s.bootRestoreScheduled = true ∧
          envs.any (fun x => s.bootRestoreAtMs ≤ u32 x.now) then 1 else 0 := by
  induction envs generalizing s with
  | nil => simp [bootFireCount]
  | cons e es ih =>
    by_cases hs : s.bootRestoreScheduled = true
    · by_cases hc : s.bootRestoreAtMs ≤ u32 e.now
      · have h' : (loopStep r e s).1.bootRestoreScheduled = false := by
          rw [loopStep_sched, hs]; simp [hc]
        simp [bootFireCount, hs, hc, bootFireCount_zero r _ es h']
      · have h1 : (loopStep r e s).1.bootRestoreScheduled =
            s.bootRestoreScheduled := by
          rw [loopStep_sched]; simp [hc]
        have h2 := loopStep_at r e s
        rw [bootFireCount, ih (loopStep r e s).1, h1, h2]
        simp [hs, hc]
    · have hs' : s.bootRestoreScheduled = false := by
        cases h : s.bootRestoreScheduled
        · rfl
        · exact absurd h hs
      simp [bootFireCount_zero r s _ hs', hs]

lemma setup_sched (r : ResetReason) (t0 : Nat) (w : Bool) :
    (setup r t0 w).bootRestoreScheduled = shouldRunRestoreOnBoot r := by
  cases hrr : shouldRunRestoreOnBoot r <;>
    simp [setup, ensureWiFi_sched, hrr, initState]

lemma setup_at (r : ResetReason) (t0 : Nat) (w : Bool) :
    (setup r t0 w).bootRestoreAtMs =
      if shouldRunRestoreOnBoot r then u32 (t0 + BOOT_DELAY_MS) else 0 := by
  cases hrr : shouldRunRestoreOnBoot r <;>
    simp [setup, ensureWiFi_at, hrr, initState]

/-- C7: the boot trigger is armed at most once, in `setup`, with fire-at
equal to the startup time plus the boot settle delay (uint32); every
iteration checks `fire-at <= now` and clears the flag when it fires;
the loop never re-arms it and never moves the fire-at time; hence over
any run the trigger fires exactly once if armed and reached, and never
more than once per boot. -/
theorem C7_boot_trigger_once (r r2 : ResetReason) (t0 : Nat) (w : Bool)
    (e : Env) (s : DevState) (envs : List Env) :
    (setup r t0 w).bootRestoreScheduled = shouldRunRestoreOnBoot r ∧
    (setup r t0 w).bootRestoreAtMs =
      (if shouldRunRestoreOnBoot r then u32 (t0 + BOOT_DELAY_MS) else 0) ∧
    (loopStep r2 e s).1.bootRestoreScheduled =
      (s.bootRestoreScheduled &&
        !(s.bootRestoreAtMs ≤ u32 e.now : Bool)) ∧
    (loopStep r2 e s).1.bootRestoreAtMs = s.bootRestoreAtMs ∧
    bootFireCount r2 s envs =
      (if s.bootRestoreScheduled = true ∧
          envs.any (fun x => s.bootRestoreAtMs ≤ u32 x.now) then 1 else 0) ∧
    bootFireCount r2 (setup r t0 w) envs ≤ 1 := by
  refine ⟨setup_sched r t0 w, setup_at r t0 w, loopStep_sched r2 e s,
    loopStep_at r2 e s, bootFireCount_formula r2 s envs, ?_⟩
  rw [bootFireCount_formula]
  split <;> simp

/-! ## Discovery-count lemmas -/

lemma status_ne_cfg : mqttTopicStatus ≠ sensorCfgTopic := by decide

lemma cfgCount_append (l1 l2 : List Event) :
    cfgCount (l1 ++ l2) = cfgCount l1 + cfgCount l2 := by
  simp [cfgCount, pubsOf_append, List.countP_append]

lemma cfgCount_nil : cfgCount [] = 0 := rfl

lemma cfgCount_publishStatus (c : Bool) (m : String) :
    cfgCount (publishStatus c m) = 0 := by
  cases c <;>
    simp [cfgCount, pubsOf_publishStatus, List.countP_cons, status_ne_cfg]

lemma cfgCount_sendCmd (code : Nat) (tag : String) (c : Bool) :
    cfgCount (sendCmd code tag c) = 0 := by
  cases c <;>
    simp [cfgCount, pubsOf_sendCmd, List.countP_cons, status_ne_cfg]

lemma countP_replicate_zero {α : Type} (p : α → Bool) (a : α) (n : Nat)
    (h : p a = false) : (List.replicate n a).countP p = 0 := by
  induction n with
  | zero => simp
  | succ n ih => simp [List.replicate_succ, List.countP_cons, h, ih]

lemma pubsOf_restore_connected (tag : String) (pre N : Nat) :
    pubsOf (restoreTo45AndOff tag pre true N) =
      (mqttTopicStatus, "restore:start:" ++ tag) ::
      (mqttTopicStatus, "sent:power_toggle_on") ::
      (mqttTopicStatus, "sent:temp_mode") ::
      (List.replicate N (mqttTopicStatus, "sent:temp_up") ++
        [(mqttTopicStatus, "sent:power_toggle_off"),
         (mqttTopicStatus, "restore:done:" ++ tag)]) := by
  simp [restoreTo45AndOff, pubsOf_append, pubsOf_publishStatus,
    pubsOf_waitIf, pubsOf_sendCmd, pubsOf_tempLoop]

lemma cfgCount_restore (tag : String) (pre : Nat) (conn : Bool) (N : Nat) :
    cfgCount (restoreTo45AndOff tag pre conn N) = 0 := by
  cases conn
  · simp [cfgCount, pubsOf_restore_disconnected]
  · have hrep : ((List.replicate N (mqttTopicStatus, "sent:temp_up")).countP
        fun p => (p.1 = sensorCfgTopic : Bool)) = 0 := by
      apply countP_replicate_zero
      simp [status_ne_cfg]
    simp [cfgCount, pubsOf_restore_connected, List.countP_cons,
      List.countP_append, status_ne_cfg, hrep]

lemma cfgCount_handleCommand (cmd : String) (conn : Bool) :
    cfgCount (handleCommand cmd conn) = 0 := by
  unfold handleCommand
  split
  · apply cfgCount_sendCmd
  split
  · apply cfgCount_sendCmd
  split
  · apply cfgCount_sendCmd
  split
  · apply cfgCount_sendCmd
  split
  · apply cfgCount_sendCmd
  split
  · apply cfgCount_sendCmd
  split
  · apply cfgCount_sendCmd
  split
  · apply cfgCount_restore
  apply cfgCount_publishStatus

lemma cfgCount_mqttLoopInbound (ps : List String) :
    cfgCount (mqttLoopInbound ps) = 0 := by
  induction ps with
  | nil => rfl
  | cons p ps ih =>
    have h : cfgCount (mqttCallback p true) = 0 := by
      unfold mqttCallback; apply cfgCount_handleCommand
    simp [mqttLoopInbound, cfgCount_append, h, ih]

lemma cfgCount_ensureWiFi (e : Env) (s : DevState) :
    cfgCount (ensureWiFiNonBlocking e s).2 = 0 := by
  rw [ensureWiFi_trace]
  split <;> decide

lemma cfgCount_ensureMQTT (e : Env) (s : DevState) :
    cfgCount (ensureMQTTNonBlocking e s).2 = 0 := by
  unfold ensureMQTTNonBlocking
  split
  · rfl
  split
  · rfl
  split
  · rfl
  split
  · show cfgCount
        ([Event.mqttConnectAttempt, Event.subscribe mqttTopicCmd] ++
          setAvailability true AVAIL_ONLINE ++ publishStatus true "online") = 0
    decide
  · show cfgCount [Event.mqttConnectAttempt] = 0
    decide

lemma cfgCount_publishAllDiscovery : cfgCount (publishAllDiscovery true) = 1 := by
  decide

lemma cfgCount_discoveryBlock (r : ResetReason) (s : DevState) :
    cfgCount (discoveryBlock r s).2 =
      if s.discoveryPublished then 0 else 1 := by
  unfold discoveryBlock
  split
  · rename_i h
    simp only [Bool.not_eq_true] at h
    simp [h, cfgCount_append, cfgCount_publishAllDiscovery,
      cfgCount_publishStatus]
  · rename_i h
    simp only [not_not] at h
    simp [h, cfgCount_nil]

lemma cfgCount_sessionBlock (r : ResetReason) (e : Env) (s : DevState) :
    cfgCount (sessionBlock r e s).2 =
      if s.mqttConnected && !s.discoveryPublished then 1 else 0 := by
  unfold sessionBlock
  split
  · rename_i h
    rw [cfgCount_append, cfgCount_mqttLoopInbound, cfgCount_discoveryBlock]
    cases hf : s.discoveryPublished <;> simp [h, hf]
  · rename_i h
    simp only [Bool.not_eq_true] at h
    simp [h, cfgCount_nil]

lemma cfgCount_bootBlock (e : Env) (s : DevState) :
    cfgCount (bootBlock e s).2 = 0 := by
  unfold bootBlock
  split
  · simp [cfgCount_append, cfgCount_publishStatus, cfgCount_restore]
  · rfl

lemma cfgCount_poll (e : Env) (s : DevState) :
    cfgCount (pollRestoreButton e s).2 = 0 := by
  simp only [pollRestoreButton]
  split
  · split
    · simp [cfgCount_append, cfgCount_publishStatus, cfgCount_restore]
    · rfl
  · rfl

/-! ## Session-state equations for ensureMQTTNonBlocking -/

lemma ensureMQTT_conn (e : Env) (s : DevState) :
    (ensureMQTTNonBlocking e s).1.mqttConnected =
      (s.mqttConnected || (mqttAttemptCond e s && e.mqttConnectOk)) := by
  unfold ensureMQTTNonBlocking mqttAttemptCond
  by_cases hw : e.wifiUp
  · by_cases hm : s.mqttConnected
    · simp [hw, hm]
    · by_cases hc : sub32 e.now s.lastMqttAttemptMs < MQTT_RETRY_MS
      · simp [hw, hm, hc, Nat.not_le.mpr hc]
      · by_cases hok : e.mqttConnectOk <;>
          simp [hw, hm, hc, Nat.not_lt.mp hc, hok]
  · simp [hw]

/-- Immediately after a successful (re)connection the discovery flag is
reset to false; otherwise it is unchanged. -/
lemma ensureMQTT_flag (e : Env) (s : DevState) :
    (ensureMQTTNonBlocking e s).1.discoveryPublished =
      (s.discoveryPublished && !(mqttAttemptCond e s && e.mqttConnectOk)) := by
  unfold ensureMQTTNonBlocking mqttAttemptCond
  by_cases hw : e.wifiUp
  · by_cases hm : s.mqttConnected
    · simp [hw, hm]
    · by_cases hc : sub32 e.now s.lastMqttAttemptMs < MQTT_RETRY_MS
      · simp [hw, hm, hc, Nat.not_le.mpr hc]
      · by_cases hok : e.mqttConnectOk <;>
          simp [hw, hm, hc, Nat.not_lt.mp hc, hok]
  · simp [hw]

/-! ## Loop-step equations for discovery publication -/

lemma loopStep_conn (r : ResetReason) (e : Env) (s : DevState) :
    (loopStep r e s).1.mqttConnected = (preSessionState e s).mqttConnected := by
  rw [loopStep_fst, poll_conn, bootBlock_conn, sessionBlock_conn]
  rfl

lemma loopStep_flag (r : ResetReason) (e : Env) (s : DevState) :
    (loopStep r e s).1.discoveryPublished =
      ((preSessionState e s).discoveryPublished ||
        (preSessionState e s).mqttConnected) := by
  rw [loopStep_fst, poll_flag, bootBlock_flag, sessionBlock_flag]
  rfl

lemma cfgCount_loopStep (r : ResetReason) (e : Env) (s : DevState) :
    cfgCount (loopStep r e s).2 =
      if (preSessionState e s).mqttConnected &&
          !(preSessionState e s).discoveryPublished then 1 else 0 := by
  have hsplit : (loopStep r e s).2 =
      (ensureWiFiNonBlocking e (dropStep e s)).2 ++
      (ensureMQTTNonBlocking e
        (otaStep e (ensureWiFiNonBlocking e (dropStep e s)).1)).2 ++
      (sessionBlock r e (preSessionState e s)).2 ++
      (bootBlock e (sessionBlock r e (preSessionState e s)).1).2 ++
      (pollRestoreButton e
        (bootBlock e (sessionBlock r e (preSessionState e s)).1).1).2 := rfl
  rw [hsplit, cfgCount_append, cfgCount_append, cfgCount_append,
    cfgCount_append, cfgCount_ensureWiFi, cfgCount_ensureMQTT,
    cfgCount_sessionBlock, cfgCount_bootBlock, cfgCount_poll]
  simp

lemma preSession_flag_mono (e : Env) (s : DevState)
    (h : (preSessionState e s).discoveryPublished = true) :
    s.discoveryPublished = true := by
  unfold preSessionState at h
  rw [ensureMQTT_flag, otaStep_flag, ensureWiFi_flag, dropStep_flag] at h
  simp only [Bool.and_eq_true] at h
  exact h.1

lemma preSession_good (e : Env) (s : DevState) (hd : e.drop = false)
    (hc : s.mqttConnected = true) :
    (preSessionState e s).mqttConnected = true ∧
    (preSessionState e s).discoveryPublished = s.discoveryPublished := by
  have hmid : (otaStep e
      (ensureWiFiNonBlocking e (dropStep e s)).1).mqttConnected = true := by
    rw [otaStep_conn, ensureWiFi_conn, dropStep_conn, hd, hc]
    rfl
  have hcond : mqttAttemptCond e
      (otaStep e (ensureWiFiNonBlocking e (dropStep e s)).1) = false := by
    unfold mqttAttemptCond
    rw [hmid]
    simp
  constructor
  · unfold preSessionState
    rw [ensureMQTT_conn, hmid]
    simp
  · unfold preSessionState
    rw [ensureMQTT_flag, hcond, otaStep_flag, ensureWiFi_flag, dropStep_flag]
    simp

/-- In a run with no session drops, once connected with discovery
published, no further discovery publication occurs. -/
lemma cfg_run_good (r : ResetReason) (envs : List Env) : ∀ s : DevState,
    s.mqttConnected = true → s.discoveryPublished = true →
    (∀ e ∈ envs, e.drop = false) →
    cfgCount (runTrace r s envs) = 0 := by
  induction envs with
  | nil => intro s _ _ _; rfl
  | cons e es ih =>
    intro s hc hf hd
    have hd0 : e.drop = false := hd e (List.mem_cons_self e es)
    have hg := preSession_good e s hd0 hc
    have hcount : cfgCount (loopStep r e s).2 = 0 := by
      rw [cfgCount_loopStep, hg.1, hg.2, hf]
      simp
    have hc' : (loopStep r e s).1.mqttConnected = true := by
      rw [loopStep_conn, hg.1]
    have hf' : (loopStep r e s).1.discoveryPublished = true := by
      rw [loopStep_flag, hg.1]
      simp
    have htail := ih (loopStep r e s).1 hc' hf'
      (fun x hx => hd x (List.mem_cons_of_mem e hx))
    simp only [runTrace, cfgCount_append, hcount, htail]

/-- In a run with no session drops, the discovery set is published at
most once. -/
lemma cfg_run_le_one (r : ResetReason) (envs : List Env) : ∀ s : DevState,
    (∀ e ∈ envs, e.drop = false) →
    cfgCount (runTrace r s envs) ≤ 1 := by
  induction envs with
  | nil => intro s _; simp [runTrace, cfgCount_nil]
  | cons e es ih =>
    intro s hd
    have hd0 : e.drop = false := hd e (List.mem_cons_self e es)
    have hdtail : ∀ x ∈ es, x.drop = false :=
      fun x hx => hd x (List.mem_cons_of_mem e hx)
    by_cases hcase : (preSessionState e s).mqttConnected = true ∧
        (preSessionState e s).discoveryPublished = false
    · have hcount : cfgCount (loopStep r e s).2 = 1 := by
        rw [cfgCount_loopStep, hcase.1, hcase.2]
        simp
      have hc' : (loopStep r e s).1.mqttConnected = true := by
        rw [loopStep_conn, hcase.1]
      have hf' : (loopStep r e s).1.discoveryPublished = true := by
        rw [loopStep_flag, hcase.1]
        simp
      have htail := cfg_run_good r es (loopStep r e s).1 hc' hf' hdtail
      simp [runTrace, cfgCount_append, hcount, htail]
    · have hcount : cfgCount (loopStep r e s).2 = 0 := by
        rw [cfgCount_loopStep]
        cases h1 : (preSessionState e s).mqttConnected <;>
          cases h2 : (preSessionState e s).discoveryPublished <;>
          simp_all
      have htail := ih (loopStep r e s).1 hdtail
      simp only [runTrace, cfgCount_append, hcount, Nat.zero_add]
      exact htail

/-- C5 counterexample: from the initial (disconnected) state, with the
link up and a connect attempt that succeeds, a SINGLE supervisor
iteration both establishes the session and completes the full discovery
publication (the flag ends true and the iteration's trace carries the
discovery set) — the publication does not wait for a later supervisor
iteration, contradicting the claim's "in a later supervisor iteration". -/
theorem C5_counterexample :
    initState.mqttConnected = false ∧
    (loopStep ESP_RST_SW
        { now := 1000000, wifiUp := true, mqttConnectOk := true,
          drop := false, inbound := [], btnLevel := true }
        initState).1.mqttConnected = true ∧
    (loopStep ESP_RST_SW
        { now := 1000000, wifiUp := true, mqttConnectOk := true,
          drop := false, inbound := [], btnLevel := true }
        initState).1.discoveryPublished = true ∧
    cfgCount (loopStep ESP_RST_SW
        { now := 1000000, wifiUp := true, mqttConnectOk := true,
          drop := false, inbound := [], btnLevel := true }
        initState).2 = 1 := by
  refine ⟨rfl, ?_, ?_, ?_⟩ <;> decide

/-- C5 (amended): the discovery-published flag is reset to false by
every successful session (re)connection; while connected and not yet
published, the session block publishes the full discovery set followed
immediately by the reset-reason status and a "ready" status and marks
the flag; the flag can end an iteration true only if it was already true
or the full set was published during that same iteration; and in any run
without an intervening disconnect the discovery set is published at most
once. -/
theorem C5_discovery_once_per_session (r : ResetReason) (e : Env)
    (s : DevState) (envs : List Env) :
    ((mqttAttemptCond e s && e.mqttConnectOk) = true →
      (ensureMQTTNonBlocking e s).1.discoveryPublished = false) ∧
    (s.mqttConnected = true → s.discoveryPublished = false →
      (sessionBlock r e s).2 =
        mqttLoopInbound e.inbound ++
          (publishAllDiscovery true ++
            publishStatus true
              ("boot:reset_reason:" ++ resetReasonToString r) ++
            publishStatus true "ready") ∧
      (sessionBlock r e s).1.discoveryPublished = true) ∧
    ((loopStep r e s).1.discoveryPublished = true →
      s.discoveryPublished = true ∨ cfgCount (loopStep r e s).2 = 1) ∧
    ((∀ x ∈ envs, x.drop = false) → cfgCount (runTrace r s envs) ≤ 1) := by
  refine ⟨?_, ?_, ?_, cfg_run_le_one r envs s⟩
  · intro h
    rw [ensureMQTT_flag, h]
    simp
  · intro hc hf
    unfold sessionBlock discoveryBlock
    simp [hc, hf]
  · intro h
    rw [loopStep_flag] at h
    by_cases hflag : (preSessionState e s).discoveryPublished = true
    · exact Or.inl (preSession_flag_mono e s hflag)
    · refine Or.inr ?_
      have hflag' : (preSessionState e s).discoveryPublished = false := by
        cases hx : (preSessionState e s).discoveryPublished
        · rfl
        · exact absurd hx hflag
      have hconn : (preSessionState e s).mqttConnected = true := by
        rw [hflag'] at h
        simpa using h
      rw [cfgCount_loopStep, hconn, hflag']
      simp

/-- Witness for C5 (amended) at concrete inputs: a successful connect
from the initial state resets the flag; a connected-unpublished state
publishes and marks the flag; a one-iteration run without drops
publishes at most once. -/
theorem C5_discovery_once_per_session_wit :
    (ensureMQTTNonBlocking
        { now := 1000000, wifiUp := true, mqttConnectOk := true,
          drop := false, inbound := [], btnLevel := true }
        initState).1.discoveryPublished = false ∧
    (sessionBlock ESP_RST_SW
        { now := 1000000, wifiUp := true, mqttConnectOk := true,
          drop := false, inbound := [], btnLevel := true }
        { initState with mqttConnected := true }).1.discoveryPublished
      = true ∧
    cfgCount (runTrace ESP_RST_SW initState
        [{ now := 1000000, wifiUp := true, mqttConnectOk := true,
           drop := false, inbound := [], btnLevel := true }]) ≤ 1 := by
  refine ⟨?_, ?_, ?_⟩
  · exact (C5_discovery_once_per_session ESP_RST_SW
      { now := 1000000, wifiUp := true, mqttConnectOk := true,
        drop := false, inbound := [], btnLevel := true }
      initState []).1 (by decide)
  · exact ((C5_discovery_once_per_session ESP_RST_SW
      { now := 1000000, wifiUp := true, mqttConnectOk := true,
        drop := false, inbound := [], btnLevel := true }
      { initState with mqttConnected := true } []).2.1 rfl rfl).2
  · exact (C5_discovery_once_per_session ESP_RST_SW
      { now := 1000000, wifiUp := true, mqttConnectOk := true,
        drop := false, inbound := [], btnLevel := true }
      initState
      [{ now := 1000000, wifiUp := true, mqttConnectOk := true,
         drop := false, inbound := [], btnLevel := true }]).2.2.2
      (by decide)

end OlimpiaBridge
